import Mathlib

/-!
Shallow embedding of the data-loading utilities of the mindbodylearning
repository (src/utils.py): the tabular data model, the subject-exclusion
filter and validator, and the five loaders (heart rate, multiple measures,
resting heart rate, sleep, roster).  File parsing (pd.read_csv,
pd.read_excel) is external input, so each loader is modelled as a function
of the already-parsed Table.  Paths and the path registry are not modelled:
no claim is about them.
-/

/-- A cell value of a DataFrame: the missing sentinel (NaN), a number, a
text string, or a date-time value (represented by its source text, since
the calendar arithmetic of parsed dates is never used by this module).
Numbers are modelled as integers: every numeric literal of the source and
of the claims is an integer, and the missing-as-zero summation semantics
does not depend on the numeric carrier. -/
inductive Value where
  | missing : Value
  | num : Int → Value
  | str : String → Value
  | date : String → Value
deriving DecidableEq

/-- A row of a DataFrame: an association list from column name to cell
value.  Lookups take the first matching column, and a name absent from the
row reads as the missing sentinel. -/
abbrev Row := List (String × Value)

/-- A DataFrame: the list of column names together with the rows. -/
structure Table where
  cols : List String
  rows : List Row
deriving DecidableEq

/-- Read the cell of column c in row r (first match; missing if absent). -/
def getCol : Row → String → Value
  | [], _ => Value.missing
  | p :: r, c => if p.1 = c then p.2 else getCol r c

/-- Does row r carry a cell for column c? -/
def hasCol : Row → String → Bool
  | [], _ => false
  | p :: r, c => decide (p.1 = c) || hasCol r c

/-- Transform every cell of a row, the new value depending on the column
name and the old value. -/
def mapRowVals (f : String → Value → Value) (r : Row) : Row :=
  r.map (fun p => (p.1, f p.1 p.2))

/-- Membership of a cell value in a list of subject-identifier strings:
the embedding of the pandas isin test against a list of strings. -/
def valueIn (v : Value) (ids : List String) : Bool :=
  ids.any (fun s => decide (v = Value.str s))

/-! ## Static data (src/utils.py lines 42-70) -/

/-- The raw exclusion list as written in the source, duplicates included
(lines 42-45). -/
def excluded_subjects_raw : List String :=
  ["MBL094", "MBL011", "MBL045", "MBL052", "MBL042",
   "MBL016", "MBL093", "MBL066", "MBL028", "MBL059",
   "MBL016", "MBL023", "MBL045", "MBL059", "MBL066",
   "MBL048", "MBL064"]

/-- excluded_subjects = list(set(excluded_subjects)) (line 46): the
deduplicated exclusion list. -/
def excluded_subjects : List String := excluded_subjects_raw.dedup

/-- The assessment calendar (lines 56-70): 8 quizzes and 3 midterms, with
their dates; quiz 9 and the final are commented out in the source. -/
def assessment_dates : List (String × String) :=
  [("Quiz_1", "2016-09-15"),
   ("Quiz_2", "2016-09-22"),
   ("Quiz_3", "2016-09-29"),
   ("Midterm_1", "2016-10-05"),
   ("Quiz_4", "2016-10-13"),
   ("Quiz_5", "2016-10-20"),
   ("Quiz_6", "2016-10-27"),
   ("Midterm_2", "2016-11-02"),
   ("Quiz_7", "2016-11-10"),
   ("Quiz_8", "2016-11-17"),
   ("Midterm_3", "2016-11-30")]

/-- assessments = [j for j, _ in assessment_dates] (line 168). -/
def assessments : List String := assessment_dates.map (fun p => p.1)

/-! ## Data load helpers (src/utils.py lines 78-92) -/

/-- Idealized date-time parse: text becomes a date-time value, anything
else (already parsed, numeric, missing) is left alone.  Unparseable text
is out of the model: per the spec the named columns hold date-like text. -/
def parseDatetimeValue : Value → Value
  | Value.str s => Value.date s
  | v => v

/-- Row action of to_datetime_inplace: parse the cells of the named
columns. -/
def to_datetime_row (columns : List String) (r : Row) : Row :=
  mapRowVals (fun k v => if columns.contains k then parseDatetimeValue v else v) r

/-- to_datetime_inplace(df, *columns) (lines 78-81): convert the named
columns to date-time.  The mutation is modelled functionally. -/
def to_datetime_inplace (df : Table) (columns : List String) : Table :=
  ⟨df.cols, df.rows.map (to_datetime_row columns)⟩

/-- remove_excluded_subjs(df, to_exclude) (lines 84-86): keep exactly the
rows whose subjectID value is not a member of to_exclude
(df[~df.subjectID.isin(to_exclude)]). -/
def remove_excluded_subjs (df : Table) (to_exclude : List String) : Table :=
  ⟨df.cols, df.rows.filter (fun r => ! valueIn (getCol r "subjectID") to_exclude)⟩

/-- check_subjects_removed condition (line 91): does any element of
to_exclude occur among the values of the subjectID column?
(pd.Series(list(to_exclude)).isin(df.subjectID).any()). -/
def check_subjects_removed (df : Table) (to_exclude : List String) : Bool :=
  to_exclude.any (fun s => df.rows.any (fun r => decide (getCol r "subjectID" = Value.str s)))

/-- check_subjects_removed as a fallible action (lines 89-92): raises
(Except.error) exactly when the condition holds; it never touches the
table. -/
def check_subjects_removed_exc (df : Table) (to_exclude : List String) : Except String Unit :=
  if check_subjects_removed df to_exclude then Except.error "Some subjects not excluded."
  else Except.ok ()

/-! ## Shared loader pieces -/

/-- Row action of replacing a value in one column (Series.replace on the
named column). -/
def replace_in_column_row (col : String) (old new : Value) (r : Row) : Row :=
  mapRowVals (fun k v => if k = col ∧ v = old then new else v) r

/-- Replace old by new in the named column of every row (line 103:
df.loc[:, c].replace(old, new, inplace=True)). -/
def replace_in_column (df : Table) (col : String) (old new : Value) : Table :=
  ⟨df.cols, df.rows.map (replace_in_column_row col old new)⟩

/-- Row action of the whole-table replace (line 164). -/
def replace_value_row (old new : Value) (r : Row) : Row :=
  mapRowVals (fun _ v => if v = old then new else v) r

/-- df.replace(to_replace=old, value=new) (line 164): recode old to new in
every cell of every column. -/
def replace_value (df : Table) (old new : Value) : Table :=
  ⟨df.cols, df.rows.map (replace_value_row old new)⟩

/-- df.set_index(col, drop=False) (lines 142, 154): with drop=False the
column is retained as ordinary data, so the table contents are unchanged;
the row index itself plays no role in any later operation modelled here. -/
def set_index (df : Table) (_col : String) : Table := df

/-- df.rename(columns=f) (lines 157-160): rename every column, in the
header and in every row. -/
def rename_columns (f : String → String) (df : Table) : Table :=
  ⟨df.cols.map f, df.rows.map (fun r => r.map (fun p => (f p.1, p.2)))⟩

/-- Single-character replacement in a string: the embedding of Python
str.replace with a one-character pattern (each occurrence replaced,
independently). -/
def replaceChar (c d : Char) (s : String) : String :=
  ⟨s.data.map (fun x => if x = c then d else x)⟩

/-- The composite column-name sanitization of load_roster (lines 157-160):
space, then question mark, then the two parentheses, each replaced by an
underscore. -/
def sanitize_column_name (s : String) : String :=
  replaceChar ')' '_' (replaceChar '(' '_' (replaceChar '?' '_' (replaceChar ' ' '_' s)))

/-- df.drop(names, axis=1) (lines 163, 165): drop the named columns;
KeyError when one of them is absent from the header. -/
def drop_columns (df : Table) (names : List String) : Except String Table :=
  if names.all (fun n => df.cols.contains n) then
    Except.ok ⟨df.cols.filter (fun c => ! names.contains c),
               df.rows.map (fun r => r.filter (fun p => ! names.contains p.1))⟩
  else Except.error "KeyError"

/-- Numeric reading of a cell for summation: the missing sentinel counts
as zero (pandas sum with skipna=True); after the roster recode the
assessment cells are numeric or missing. -/
def numOrZero : Value → Int
  | Value.num q => q
  | _ => 0

/-- Row-wise sum of the named columns, missing as zero
(df.loc[:, names].sum(axis=1) for one row). -/
def sum_assessments (r : Row) (names : List String) : Int :=
  (names.map (fun n => numOrZero (getCol r n))).sum

/-- Column assignment df.loc[:, k] = v on one row: overwrite the cells of
an existing column k, or append k as a new last column. -/
def set_value_row (k : String) (v : Value) (r : Row) : Row :=
  if hasCol r k then r.map (fun p => if p.1 = k then (k, v) else p)
  else r ++ [(k, v)]

/-- df.loc[:, newCol] = df.loc[:, names].sum(axis=1) (line 169): append
the per-row missing-as-zero sum of the named columns. -/
def set_column_sum (df : Table) (names : List String) (newCol : String) : Table :=
  ⟨if df.cols.contains newCol then df.cols else df.cols ++ [newCol],
   df.rows.map (fun r => set_value_row newCol (Value.num (sum_assessments r names)) r)⟩

/-! ## Data loaders (src/utils.py lines 100-175) -/

/-- load_heart_rate_data (lines 100-110), on the parsed CSV table:
replace literal 0 in the bpm column by the missing sentinel, parse
dateTime, then optionally filter and validate exclusions. -/
def load_heart_rate_data (df : Table) (exclude : Bool) : Except String Table :=
  let df1 := replace_in_column df "bpm" (Value.num 0) Value.missing
  let df2 := to_datetime_inplace df1 ["dateTime"]
  if exclude then
    let df3 := remove_excluded_subjs df2 excluded_subjects
    match check_subjects_removed_exc df3 excluded_subjects with
    | Except.error e => Except.error e
    | Except.ok _ => Except.ok df3
  else Except.ok df2

/-- load_mult_measures_data (lines 113-122). -/
def load_mult_measures_data (df : Table) (exclude : Bool) : Except String Table :=
  let df1 := to_datetime_inplace df ["dateTime"]
  if exclude then
    let df2 := remove_excluded_subjs df1 excluded_subjects
    match check_subjects_removed_exc df2 excluded_subjects with
    | Except.error e => Except.error e
    | Except.ok _ => Except.ok df2
  else Except.ok df1

/-- load_resting_heart_rate_data (lines 125-135). -/
def load_resting_heart_rate_data (df : Table) (exclude : Bool) : Except String Table :=
  let df1 := to_datetime_inplace df ["date"]
  if exclude then
    let df2 := remove_excluded_subjs df1 excluded_subjects
    match check_subjects_removed_exc df2 excluded_subjects with
    | Except.error e => Except.error e
    | Except.ok _ => Except.ok df2
  else Except.ok df1

/-- load_sleep_data (lines 138-148): parse the three date columns and
re-index by date (set_index with drop=False, contents unchanged). -/
def load_sleep_data (df : Table) (exclude : Bool) : Except String Table :=
  let df1 := to_datetime_inplace df ["date", "startDateTime", "endDateTime"]
  let df2 := set_index df1 "date"
  if exclude then
    let df3 := remove_excluded_subjs df2 excluded_subjects
    match check_subjects_removed_exc df3 excluded_subjects with
    | Except.error e => Except.error e
    | Except.ok _ => Except.ok df3
  else Except.ok df2

/-- load_roster (lines 151-175), on the parsed spreadsheet table: index by
subjectID (retained as a column), sanitize column names with the four
character replacements, drop the PII columns, recode the literal "X" to
missing everywhere, drop Quiz_9 and Final, append the overall_score sum of
the assessment-calendar columns, then optionally filter and validate
exclusions.  Selecting the assessment columns requires them to be present,
as does each drop. -/
def load_roster (df : Table) (exclude : Bool) : Except String Table :=
  let df1 := set_index df "subjectID"
  let df2 := rename_columns (replaceChar ' ' '_') df1
  let df3 := rename_columns (replaceChar '?' '_') df2
  let df4 := rename_columns (replaceChar '(' '_') df3
  let df5 := rename_columns (replaceChar ')' '_') df4
  match drop_columns df5 ["account_email", "lastname", "firstname"] with
  | Except.error e => Except.error e
  | Except.ok df6 =>
    let df7 := replace_value df6 (Value.str "X") Value.missing
    match drop_columns df7 ["Quiz_9", "Final"] with
    | Except.error e => Except.error e
    | Except.ok df8 =>
      if assessments.all (fun n => df8.cols.contains n) then
        let df9 := set_column_sum df8 assessments "overall_score"
        if exclude then
          let df10 := remove_excluded_subjs df9 excluded_subjects
          match check_subjects_removed_exc df10 excluded_subjects with
          | Except.error e => Except.error e
          | Except.ok _ => Except.ok df10
        else Except.ok df9
      else Except.error "KeyError"

/-! ## Basic lemmas about rows and the exclusion machinery -/

theorem getCol_mapRowVals (f : String → Value → Value) (r : Row) (c : String)
    (hf : f c Value.missing = Value.missing) :
    getCol (mapRowVals f r) c = f c (getCol r c) := by
  induction r with
  | nil => simpa [mapRowVals, getCol] using hf.symm
  | cons p r ih =>
    by_cases h : p.1 = c
    · subst h; simp [mapRowVals, getCol]
    · simpa [mapRowVals, getCol, h] using ih

theorem valueIn_eq_false_iff (v : Value) (ids : List String) :
    valueIn v ids = false ↔ ∀ s ∈ ids, v ≠ Value.str s := by
  simp [valueIn]

theorem mem_remove_excluded_rows (df : Table) (ex : List String) (r : Row) :
    r ∈ (remove_excluded_subjs df ex).rows ↔
      r ∈ df.rows ∧ valueIn (getCol r "subjectID") ex = false := by
  simp [remove_excluded_subjs, List.mem_filter]

theorem check_subjects_removed_eq_true_iff (df : Table) (ex : List String) :
    check_subjects_removed df ex = true ↔
      ∃ s ∈ ex, ∃ r ∈ df.rows, getCol r "subjectID" = Value.str s := by
  simp [check_subjects_removed]

theorem check_after_remove (df : Table) (ex : List String) :
    check_subjects_removed_exc (remove_excluded_subjs df ex) ex = Except.ok () := by
  have h : check_subjects_removed (remove_excluded_subjs df ex) ex = false := by
    rw [Bool.eq_false_iff]
    intro hc
    rcases (check_subjects_removed_eq_true_iff _ _).mp hc with ⟨s, hs, r, hr, hid⟩
    rcases (mem_remove_excluded_rows df ex r).mp hr with ⟨-, hfalse⟩
    exact ((valueIn_eq_false_iff _ _).mp hfalse s hs) hid
  simp [check_subjects_removed_exc, h]

theorem getCol_map_set_of_has (k : String) (v : Value) (r : Row) (h : hasCol r k = true) :
    getCol (r.map (fun p => if p.1 = k then (k, v) else p)) k = v := by
  induction r with
  | nil => simp [hasCol] at h
  | cons p r ih =>
    by_cases hp : p.1 = k
    · simp [getCol, hp]
    · have h' : hasCol r k = true := by simpa [hasCol, hp] using h
      simpa [getCol, hp] using ih h'

theorem getCol_append_single (k : String) (v : Value) (r : Row) (h : hasCol r k = false) :
    getCol (r ++ [(k, v)]) k = v := by
  induction r with
  | nil => simp [getCol]
  | cons p r ih =>
    simp only [hasCol, Bool.or_eq_false_iff, decide_eq_false_iff_not] at h
    simp [getCol, h.1, ih h.2]

theorem getCol_map_set_ne (k c : String) (v : Value) (r : Row) (hck : c ≠ k) :
    getCol (r.map (fun p => if p.1 = k then (k, v) else p)) c = getCol r c := by
  induction r with
  | nil => simp
  | cons p r ih =>
    by_cases hp : p.1 = k
    · simp [getCol, hp, Ne.symm hck, ih]
    · by_cases hpc : p.1 = c
      · simp [getCol, hp, hpc, hck]
      · simp [getCol, hp, hpc, ih]

theorem getCol_append_single_ne (k c : String) (v : Value) (r : Row) (hck : c ≠ k) :
    getCol (r ++ [(k, v)]) c = getCol r c := by
  induction r with
  | nil => simp [getCol, Ne.symm hck]
  | cons p r ih => by_cases hpc : p.1 = c <;> simp [getCol, hpc, ih]

theorem getCol_set_value_same (k : String) (v : Value) (r : Row) :
    getCol (set_value_row k v r) k = v := by
  unfold set_value_row
  by_cases h : hasCol r k = true
  · simpa [h] using getCol_map_set_of_has k v r h
  · have h' : hasCol r k = false := by simpa using h
    simpa [h'] using getCol_append_single k v r h'

theorem getCol_set_value_ne (k c : String) (v : Value) (r : Row) (hck : c ≠ k) :
    getCol (set_value_row k v r) c = getCol r c := by
  unfold set_value_row
  by_cases h : hasCol r k = true
  · simp [h, getCol_map_set_ne k c v r hck]
  · simp [h, getCol_append_single_ne k c v r hck]

theorem mem_set_value_row (k : String) (v : Value) (r : Row) (p : String × Value)
    (hp : p ∈ set_value_row k v r) : p ∈ r ∨ p = (k, v) := by
  unfold set_value_row at hp
  by_cases h : hasCol r k = true
  · rw [if_pos h] at hp
    rcases List.mem_map.mp hp with ⟨q, hq, hpq⟩
    by_cases hqk : q.1 = k
    · right
      rw [if_pos hqk] at hpq
      exact hpq.symm
    · left
      rw [if_neg hqk] at hpq
      exact hpq ▸ hq
  · rw [if_neg h] at hp
    rcases List.mem_append.mp hp with h1 | h1
    · exact Or.inl h1
    · exact Or.inr (List.mem_singleton.mp h1)

theorem no_X_replace_value_row (r : Row) (p : String × Value)
    (hp : p ∈ replace_value_row (Value.str "X") Value.missing r) :
    p.2 ≠ Value.str "X" := by
  rcases List.mem_map.mp hp with ⟨q, _, hpq⟩
  subst hpq
  by_cases hq : q.2 = Value.str "X" <;> simp [hq]

/-- C3: the Exclusion Filter returns exactly the rows whose subjectID is
not in the exclusion list, keeps their relative order (a sublist of the
input rows), keeps the header, and with an empty exclusion list returns
the input table unchanged.  (The embedding is purely functional, so the
input table is never mutated.) -/
theorem spec_C3 : ∀ (df : Table) (ex : List String),
    (∀ r : Row, r ∈ (remove_excluded_subjs df ex).rows ↔
        r ∈ df.rows ∧ valueIn (getCol r "subjectID") ex = false) ∧
    (remove_excluded_subjs df ex).rows.Sublist df.rows ∧
    (remove_excluded_subjs df ex).cols = df.cols ∧
    remove_excluded_subjs df [] = df := by
  intro df ex
  refine ⟨fun r => mem_remove_excluded_rows df ex r, List.filter_sublist _, rfl, ?_⟩
  cases df with
  | mk cols rows => simp [remove_excluded_subjs, valueIn]

/-- C3 witness: concrete instance of the filter contract. -/
theorem spec_C3_witness :
    ([("subjectID", Value.str "MBL001")] ∈
        (remove_excluded_subjs
          ⟨["subjectID"], [[("subjectID", Value.str "MBL001")],
                           [("subjectID", Value.str "MBL094")]]⟩
          excluded_subjects).rows ↔
      ([("subjectID", Value.str "MBL001")] ∈
          ([[("subjectID", Value.str "MBL001")],
            [("subjectID", Value.str "MBL094")]] : List Row) ∧
        valueIn (getCol [("subjectID", Value.str "MBL001")] "subjectID")
          excluded_subjects = false)) ∧
    remove_excluded_subjs ⟨["subjectID"], [[("subjectID", Value.str "MBL001")]]⟩ [] =
      ⟨["subjectID"], [[("subjectID", Value.str "MBL001")]]⟩ :=
  ⟨(spec_C3 ⟨["subjectID"], [[("subjectID", Value.str "MBL001")],
      [("subjectID", Value.str "MBL094")]]⟩ excluded_subjects).1 _,
   (spec_C3 ⟨["subjectID"], [[("subjectID", Value.str "MBL001")]]⟩ []).2.2.2⟩

/-- C4: the Exclusion Validator raises exactly when some member of the
exclusion list occurs among the subjectID column values (membership
direction: excluded id present in the column), returns unit otherwise, and
never returns or alters a table. -/
theorem spec_C4 : ∀ (df : Table) (ex : List String),
    (check_subjects_removed_exc df ex = Except.error "Some subjects not excluded." ↔
      ∃ s ∈ ex, ∃ r ∈ df.rows, getCol r "subjectID" = Value.str s) ∧
    (check_subjects_removed_exc df ex = Except.ok () ↔
      ¬ ∃ s ∈ ex, ∃ r ∈ df.rows, getCol r "subjectID" = Value.str s) := by
  intro df ex
  have hiff := check_subjects_removed_eq_true_iff df ex
  cases hb : check_subjects_removed df ex with
  | true =>
    have hex := hiff.mp hb
    exact ⟨by simp [check_subjects_removed_exc, hb, hex],
           by simp [check_subjects_removed_exc, hb, hex]⟩
  | false =>
    have hnex : ¬ ∃ s ∈ ex, ∃ r ∈ df.rows, getCol r "subjectID" = Value.str s := by
      intro hc
      have h2 := hiff.mpr hc
      rw [hb] at h2
      exact Bool.false_ne_true h2
    exact ⟨by simp [check_subjects_removed_exc, hb, hnex],
           by simp [check_subjects_removed_exc, hb, hnex]⟩

/-- C4 witness: on a one-row table holding an excluded subject, the
validator raises; on the same table with an empty list, it does not. -/
theorem spec_C4_witness :
    check_subjects_removed_exc
        ⟨["subjectID"], [[("subjectID", Value.str "MBL094")]]⟩ excluded_subjects =
      Except.error "Some subjects not excluded." ∧
    check_subjects_removed_exc
        ⟨["subjectID"], [[("subjectID", Value.str "MBL094")]]⟩ [] = Except.ok () :=
  ⟨(spec_C4 ⟨["subjectID"], [[("subjectID", Value.str "MBL094")]]⟩
      excluded_subjects).1.mpr
      ⟨"MBL094", by decide, [("subjectID", Value.str "MBL094")], by simp, by decide⟩,
   (spec_C4 ⟨["subjectID"], [[("subjectID", Value.str "MBL094")]]⟩ []).2.mpr
      (by simp)⟩

/-- C8: the Exclusion Filter is idempotent — filtering an already-filtered
table with the same exclusion list leaves it unchanged. -/
theorem spec_C8 : ∀ (df : Table) (ex : List String),
    remove_excluded_subjs (remove_excluded_subjs df ex) ex =
      remove_excluded_subjs df ex := by
  intro df ex
  cases df with
  | mk cols rows => simp [remove_excluded_subjs, List.filter_filter]

/-- C10: the Exclusion Validator never raises when the exclusion list is
empty, whatever the table. -/
theorem spec_C10 : ∀ df : Table, check_subjects_removed_exc df [] = Except.ok () := by
  intro df
  rfl

theorem drop_columns_ok_rows (df : Table) (names : List String) (t : Table)
    (h : drop_columns df names = Except.ok t) :
    t.rows = df.rows.map (fun r => r.filter (fun p => ! names.contains p.1)) := by
  unfold drop_columns at h
  split at h
  · cases h
    rfl
  · simp at h

theorem no_X_of_mem_drop (df6 df8 : Table)
    (heq8 : drop_columns (replace_value df6 (Value.str "X") Value.missing)
        ["Quiz_9", "Final"] = Except.ok df8)
    (r0 : Row) (hr0mem : r0 ∈ df8.rows) : ∀ p ∈ r0, p.2 ≠ Value.str "X" := by
  have hrows8 := drop_columns_ok_rows _ _ _ heq8
  rw [hrows8] at hr0mem
  obtain ⟨r7, hr7mem, hr7⟩ := List.mem_map.mp hr0mem
  intro p hp
  subst hr7
  have hp7 : p ∈ r7 := List.mem_of_mem_filter hp
  simp only [replace_value, List.mem_map] at hr7mem
  obtain ⟨r6, hr6mem, hr6⟩ := hr7mem
  subst hr6
  exact no_X_replace_value_row r6 p hp7

theorem load_roster_ok_rows (df : Table) (e : Bool) (t : Table)
    (h : load_roster df e = Except.ok t) :
    ∀ r ∈ t.rows, ∃ r0 : Row,
      r = set_value_row "overall_score" (Value.num (sum_assessments r0 assessments)) r0 ∧
      (∀ p ∈ r0, p.2 ≠ Value.str "X") ∧
      (e = true → valueIn (getCol r "subjectID") excluded_subjects = false) := by
  unfold load_roster at h
  simp only [] at h
  split at h
  next => simp at h
  next x df6 heq6 =>
    split at h
    next => simp at h
    next x2 df8 heq8 =>
      split at h
      next hall =>
        split at h
        next he =>
          split at h
          next => simp at h
          next x3 a heqc =>
            have ht : remove_excluded_subjs
                (set_column_sum df8 assessments "overall_score") excluded_subjects = t := by
              simpa using h
            subst ht
            intro r hr
            obtain ⟨hr9, hval⟩ := (mem_remove_excluded_rows _ _ r).mp hr
            simp only [set_column_sum, List.mem_map] at hr9
            obtain ⟨r0, hr0mem, hr0⟩ := hr9
            exact ⟨r0, hr0.symm, no_X_of_mem_drop df6 df8 heq8 r0 hr0mem, fun _ => hval⟩
        next he =>
          have ht : set_column_sum df8 assessments "overall_score" = t := by
            simpa using h
          subst ht
          intro r hr
          simp only [set_column_sum, List.mem_map] at hr
          obtain ⟨r0, hr0mem, hr0⟩ := hr
          exact ⟨r0, hr0.symm, no_X_of_mem_drop df6 df8 heq8 r0 hr0mem,
            fun habs => absurd habs he⟩
      next hall => simp at h

/-- C1: every loader called with exclude = true returns a table whose
subjectID column contains no member of the exclusion list, and running the
Exclusion Validator immediately after the Exclusion Filter never raises,
for any table and any exclusion list. -/
theorem spec_C1 :
    (∀ (df t : Table), load_heart_rate_data df true = Except.ok t →
      ∀ r ∈ t.rows, valueIn (getCol r "subjectID") excluded_subjects = false) ∧
    (∀ (df t : Table), load_mult_measures_data df true = Except.ok t →
      ∀ r ∈ t.rows, valueIn (getCol r "subjectID") excluded_subjects = false) ∧
    (∀ (df t : Table), load_resting_heart_rate_data df true = Except.ok t →
      ∀ r ∈ t.rows, valueIn (getCol r "subjectID") excluded_subjects = false) ∧
    (∀ (df t : Table), load_sleep_data df true = Except.ok t →
      ∀ r ∈ t.rows, valueIn (getCol r "subjectID") excluded_subjects = false) ∧
    (∀ (df t : Table), load_roster df true = Except.ok t →
      ∀ r ∈ t.rows, valueIn (getCol r "subjectID") excluded_subjects = false) ∧
    (∀ (df : Table) (ex : List String),
      check_subjects_removed_exc (remove_excluded_subjs df ex) ex = Except.ok ()) := by
  refine ⟨?_, ?_, ?_, ?_, ?_, check_after_remove⟩
  · intro df t h
    unfold load_heart_rate_data at h
    simp only [check_after_remove, if_true] at h
    cases h
    intro r hr
    exact ((mem_remove_excluded_rows _ _ r).mp hr).2
  · intro df t h
    unfold load_mult_measures_data at h
    simp only [check_after_remove, if_true] at h
    cases h
    intro r hr
    exact ((mem_remove_excluded_rows _ _ r).mp hr).2
  · intro df t h
    unfold load_resting_heart_rate_data at h
    simp only [check_after_remove, if_true] at h
    cases h
    intro r hr
    exact ((mem_remove_excluded_rows _ _ r).mp hr).2
  · intro df t h
    unfold load_sleep_data at h
    simp only [check_after_remove, if_true] at h
    cases h
    intro r hr
    exact ((mem_remove_excluded_rows _ _ r).mp hr).2
  · intro df t h r hr
    obtain ⟨r0, -, -, hval⟩ := load_roster_ok_rows df true t h r hr
    exact hval rfl

/-- Concrete heart-rate-shaped input table for witnesses. -/
def tbl_hr_in : Table :=
  ⟨["subjectID", "dateTime", "bpm"],
   [[("subjectID", Value.str "MBL001"), ("dateTime", Value.str "2016-09-15"),
     ("bpm", Value.num 72)]]⟩

/-- The table tbl_hr_in after loading (dateTime parsed). -/
def tbl_hr_out : Table :=
  ⟨["subjectID", "dateTime", "bpm"],
   [[("subjectID", Value.str "MBL001"), ("dateTime", Value.date "2016-09-15"),
     ("bpm", Value.num 72)]]⟩

/-- Concrete date-indexed input table for witnesses. -/
def tbl_date_in : Table :=
  ⟨["subjectID", "date"],
   [[("subjectID", Value.str "MBL001"), ("date", Value.str "2016-09-15")]]⟩

/-- The table tbl_date_in after loading (date parsed). -/
def tbl_date_out : Table :=
  ⟨["subjectID", "date"],
   [[("subjectID", Value.str "MBL001"), ("date", Value.date "2016-09-15")]]⟩

/-- Concrete roster-shaped input table for witnesses: one subject with all
assessment scores equal to 1. -/
def tbl_roster_in : Table :=
  ⟨["subjectID", "account_email", "lastname", "firstname",
    "Quiz_1", "Quiz_2", "Quiz_3", "Midterm_1", "Quiz_4", "Quiz_5", "Quiz_6",
    "Midterm_2", "Quiz_7", "Quiz_8", "Midterm_3", "Quiz_9", "Final"],
   [[("subjectID", Value.str "MBL001"), ("account_email", Value.str "a"),
     ("lastname", Value.str "b"), ("firstname", Value.str "c"),
     ("Quiz_1", Value.num 1), ("Quiz_2", Value.num 1), ("Quiz_3", Value.num 1),
     ("Midterm_1", Value.num 1), ("Quiz_4", Value.num 1), ("Quiz_5", Value.num 1),
     ("Quiz_6", Value.num 1), ("Midterm_2", Value.num 1), ("Quiz_7", Value.num 1),
     ("Quiz_8", Value.num 1), ("Midterm_3", Value.num 1), ("Quiz_9", Value.num 1),
     ("Final", Value.num 1)]]⟩

/-- The single row of load_roster tbl_roster_in true. -/
def row_roster_out : Row :=
  [("subjectID", Value.str "MBL001"),
   ("Quiz_1", Value.num 1), ("Quiz_2", Value.num 1), ("Quiz_3", Value.num 1),
   ("Midterm_1", Value.num 1), ("Quiz_4", Value.num 1), ("Quiz_5", Value.num 1),
   ("Quiz_6", Value.num 1), ("Midterm_2", Value.num 1), ("Quiz_7", Value.num 1),
   ("Quiz_8", Value.num 1), ("Midterm_3", Value.num 1),
   ("overall_score", Value.num 11)]

/-- The table load_roster tbl_roster_in true returns. -/
def tbl_roster_out : Table :=
  ⟨["subjectID", "Quiz_1", "Quiz_2", "Quiz_3", "Midterm_1", "Quiz_4", "Quiz_5",
    "Quiz_6", "Midterm_2", "Quiz_7", "Quiz_8", "Midterm_3", "overall_score"],
   [row_roster_out]⟩

/-- C1 witness: each loader applied to a concrete table with exclude=true,
plus the filter-validate round trip on a concrete table. -/
theorem spec_C1_witness :
    valueIn (getCol [("subjectID", Value.str "MBL001"),
        ("dateTime", Value.date "2016-09-15"), ("bpm", Value.num 72)] "subjectID")
        excluded_subjects = false ∧
    valueIn (getCol [("subjectID", Value.str "MBL001"),
        ("date", Value.date "2016-09-15")] "subjectID") excluded_subjects = false ∧
    valueIn (getCol row_roster_out "subjectID") excluded_subjects = false ∧
    check_subjects_removed_exc (remove_excluded_subjs tbl_hr_in excluded_subjects)
      excluded_subjects = Except.ok () :=
  ⟨spec_C1.1 tbl_hr_in tbl_hr_out rfl _ (by simp [tbl_hr_out]),
   spec_C1.2.2.1 tbl_date_in tbl_date_out rfl _ (by simp [tbl_date_out]),
   spec_C1.2.2.2.2.1 tbl_roster_in tbl_roster_out (by rfl) _ (by simp [tbl_roster_out]),
   spec_C1.2.2.2.2.2 tbl_hr_in excluded_subjects⟩

/-- C5: in the table the heart-rate loader returns, the bpm cell of each
processed input row is the missing sentinel when the source bpm was the
literal 0 and is the unchanged source value otherwise, and every returned
row is the processed image of an input row. -/
theorem spec_C5 : ∀ (df : Table) (e : Bool) (t : Table),
    load_heart_rate_data df e = Except.ok t →
    (∀ r ∈ df.rows,
      getCol (to_datetime_row ["dateTime"]
          (replace_in_column_row "bpm" (Value.num 0) Value.missing r)) "bpm" =
        (if getCol r "bpm" = Value.num 0 then Value.missing else getCol r "bpm")) ∧
    (∀ r2 ∈ t.rows, ∃ r ∈ df.rows,
      r2 = to_datetime_row ["dateTime"]
        (replace_in_column_row "bpm" (Value.num 0) Value.missing r)) := by
  intro df e t h
  constructor
  · intro r _
    have h1 : getCol (replace_in_column_row "bpm" (Value.num 0) Value.missing r) "bpm" =
        if getCol r "bpm" = Value.num 0 then Value.missing else getCol r "bpm" := by
      have hm := getCol_mapRowVals
        (fun k v => if k = "bpm" ∧ v = Value.num 0 then Value.missing else v) r "bpm"
        (by simp)
      simpa [replace_in_column_row] using hm
    have h2 : getCol (to_datetime_row ["dateTime"]
        (replace_in_column_row "bpm" (Value.num 0) Value.missing r)) "bpm" =
        getCol (replace_in_column_row "bpm" (Value.num 0) Value.missing r) "bpm" := by
      have hm := getCol_mapRowVals
        (fun k v => if ([("dateTime" : String)] : List String).contains k
          then parseDatetimeValue v else v)
        (replace_in_column_row "bpm" (Value.num 0) Value.missing r) "bpm"
        (by simp [parseDatetimeValue])
      simpa [to_datetime_row] using hm
    rw [h2, h1]
  · unfold load_heart_rate_data at h
    simp only [] at h
    split at h
    next he =>
      split at h
      next => simp at h
      next x a heqc =>
        have ht : remove_excluded_subjs
            (to_datetime_inplace (replace_in_column df "bpm" (Value.num 0) Value.missing)
              ["dateTime"]) excluded_subjects = t := by
          simpa using h
        subst ht
        intro r2 hr2
        obtain ⟨hmem, -⟩ := (mem_remove_excluded_rows _ _ r2).mp hr2
        simp only [to_datetime_inplace, replace_in_column, List.mem_map] at hmem
        obtain ⟨r1, ⟨r0, hr0, hr01⟩, hr12⟩ := hmem
        exact ⟨r0, hr0, by rw [← hr12, ← hr01]⟩
    next he =>
      have ht : to_datetime_inplace (replace_in_column df "bpm" (Value.num 0) Value.missing)
          ["dateTime"] = t := by
        simpa using h
      subst ht
      intro r2 hr2
      simp only [to_datetime_inplace, replace_in_column, List.mem_map] at hr2
      obtain ⟨r1, ⟨r0, hr0, hr01⟩, hr12⟩ := hr2
      exact ⟨r0, hr0, by rw [← hr12, ← hr01]⟩

/-- Concrete heart-rate table with a zero-bpm row and a 72-bpm row. -/
def tbl_hr_zero_in : Table :=
  ⟨["subjectID", "dateTime", "bpm"],
   [[("subjectID", Value.str "MBL003"), ("dateTime", Value.str "2016-09-15"),
     ("bpm", Value.num 0)],
    [("subjectID", Value.str "MBL004"), ("dateTime", Value.str "2016-09-15"),
     ("bpm", Value.num 72)]]⟩

/-- load_heart_rate_data tbl_hr_zero_in false. -/
def tbl_hr_zero_out : Table :=
  ⟨["subjectID", "dateTime", "bpm"],
   [[("subjectID", Value.str "MBL003"), ("dateTime", Value.date "2016-09-15"),
     ("bpm", Value.missing)],
    [("subjectID", Value.str "MBL004"), ("dateTime", Value.date "2016-09-15"),
     ("bpm", Value.num 72)]]⟩

/-- C5 witness: the zero-bpm row loads to a missing bpm and the 72-bpm row
keeps its value. -/
theorem spec_C5_witness :
    getCol (to_datetime_row ["dateTime"]
        (replace_in_column_row "bpm" (Value.num 0) Value.missing
          [("subjectID", Value.str "MBL003"), ("dateTime", Value.str "2016-09-15"),
           ("bpm", Value.num 0)])) "bpm" = Value.missing ∧
    getCol (to_datetime_row ["dateTime"]
        (replace_in_column_row "bpm" (Value.num 0) Value.missing
          [("subjectID", Value.str "MBL004"), ("dateTime", Value.str "2016-09-15"),
           ("bpm", Value.num 72)])) "bpm" = Value.num 72 := by
  have h := spec_C5 tbl_hr_zero_in false tbl_hr_zero_out (by rfl)
  constructor
  · have h1 := h.1 [("subjectID", Value.str "MBL003"),
      ("dateTime", Value.str "2016-09-15"), ("bpm", Value.num 0)]
      (by simp [tbl_hr_zero_in])
    simpa using h1
  · have h1 := h.1 [("subjectID", Value.str "MBL004"),
      ("dateTime", Value.str "2016-09-15"), ("bpm", Value.num 72)]
      (by simp [tbl_hr_zero_in])
    simpa using h1

theorem sanitize_char_step (c : Char) :
    (fun x => if x = ')' then '_' else x)
      ((fun x => if x = '(' then '_' else x)
        ((fun x => if x = '?' then '_' else x)
          ((fun x => if x = ' ' then '_' else x) c))) =
    (if c = ' ' ∨ c = '?' ∨ c = '(' ∨ c = ')' then '_' else c) := by
  by_cases h1 : c = ' '
  · subst h1; decide
  · by_cases h2 : c = '?'
    · subst h2; decide
    · by_cases h3 : c = '('
      · subst h3; decide
      · by_cases h4 : c = ')'
        · subst h4; decide
        · simp [h1, h2, h3, h4]

/-- C7: the column-name sanitization of load_roster replaces each
occurrence of any of the four characters space, question mark, opening
parenthesis, closing parenthesis by an underscore, character by character;
the example name from the spec maps as stated; and the four successive
renames performed by load_roster equal one rename by the composite
sanitization. -/
theorem spec_C7 :
    (∀ s : String, sanitize_column_name s =
      ⟨s.data.map (fun c => if c = ' ' ∨ c = '?' ∨ c = '(' ∨ c = ')' then '_' else c)⟩) ∧
    sanitize_column_name "Exam (Retake)?" = "Exam__Retake__" ∧
    (∀ df : Table,
      rename_columns (replaceChar ')' '_')
        (rename_columns (replaceChar '(' '_')
          (rename_columns (replaceChar '?' '_')
            (rename_columns (replaceChar ' ' '_') df))) =
      rename_columns sanitize_column_name df) := by
  refine ⟨?_, by decide, ?_⟩
  · intro s
    unfold sanitize_column_name replaceChar
    simp only [List.map_map]
    congr 1
    refine List.map_congr_left (fun c _ => ?_)
    simpa [Function.comp] using sanitize_char_step c
  · intro df
    cases df with
    | mk cols rows =>
      simp only [rename_columns, List.map_map, Function.comp]
      congr 1
      refine List.map_congr_left fun r _ => ?_
      simp only [Function.comp_apply, List.map_map]
      exact List.map_congr_left fun p _ => rfl

/-- C2: in every table load_roster returns, the overall_score cell of each
row equals the sum of exactly the eleven assessment-calendar cells of that
row, each missing value contributing zero. -/
theorem spec_C2 : ∀ (df : Table) (e : Bool) (t : Table),
    load_roster df e = Except.ok t →
    ∀ r ∈ t.rows, getCol r "overall_score" =
      Value.num (numOrZero (getCol r "Quiz_1") + numOrZero (getCol r "Quiz_2") +
        numOrZero (getCol r "Quiz_3") + numOrZero (getCol r "Midterm_1") +
        numOrZero (getCol r "Quiz_4") + numOrZero (getCol r "Quiz_5") +
        numOrZero (getCol r "Quiz_6") + numOrZero (getCol r "Midterm_2") +
        numOrZero (getCol r "Quiz_7") + numOrZero (getCol r "Quiz_8") +
        numOrZero (getCol r "Midterm_3")) := by
  intro df e t h r hr
  obtain ⟨r0, hreq, -, -⟩ := load_roster_ok_rows df e t h r hr
  subst hreq
  rw [getCol_set_value_same]
  have hne : ∀ n : String, n ≠ "overall_score" →
      getCol (set_value_row "overall_score"
        (Value.num (sum_assessments r0 assessments)) r0) n = getCol r0 n :=
    fun n hn => getCol_set_value_ne _ n _ r0 hn
  rw [hne "Quiz_1" (by decide), hne "Quiz_2" (by decide), hne "Quiz_3" (by decide),
    hne "Midterm_1" (by decide), hne "Quiz_4" (by decide), hne "Quiz_5" (by decide),
    hne "Quiz_6" (by decide), hne "Midterm_2" (by decide), hne "Quiz_7" (by decide),
    hne "Quiz_8" (by decide), hne "Midterm_3" (by decide)]
  congr 1
  simp only [sum_assessments, assessments, assessment_dates, List.map_cons,
    List.map_nil, List.sum_cons, List.sum_nil]
  ring

/-- Concrete roster table realizing the C2 example: Quiz_1 = 10, Quiz_2
missing, Midterm_1 = 40, every other calendar column 0. -/
def tbl_c2_in : Table :=
  ⟨["subjectID", "account_email", "lastname", "firstname",
    "Quiz_1", "Quiz_2", "Quiz_3", "Midterm_1", "Quiz_4", "Quiz_5", "Quiz_6",
    "Midterm_2", "Quiz_7", "Quiz_8", "Midterm_3", "Quiz_9", "Final"],
   [[("subjectID", Value.str "MBL002"), ("account_email", Value.str "a"),
     ("lastname", Value.str "b"), ("firstname", Value.str "c"),
     ("Quiz_1", Value.num 10), ("Quiz_2", Value.missing), ("Quiz_3", Value.num 0),
     ("Midterm_1", Value.num 40), ("Quiz_4", Value.num 0), ("Quiz_5", Value.num 0),
     ("Quiz_6", Value.num 0), ("Midterm_2", Value.num 0), ("Quiz_7", Value.num 0),
     ("Quiz_8", Value.num 0), ("Midterm_3", Value.num 0), ("Quiz_9", Value.num 0),
     ("Final", Value.num 0)]]⟩

/-- The single row of load_roster tbl_c2_in false. -/
def row_c2_out : Row :=
  [("subjectID", Value.str "MBL002"),
   ("Quiz_1", Value.num 10), ("Quiz_2", Value.missing), ("Quiz_3", Value.num 0),
   ("Midterm_1", Value.num 40), ("Quiz_4", Value.num 0), ("Quiz_5", Value.num 0),
   ("Quiz_6", Value.num 0), ("Midterm_2", Value.num 0), ("Quiz_7", Value.num 0),
   ("Quiz_8", Value.num 0), ("Midterm_3", Value.num 0),
   ("overall_score", Value.num 50)]

/-- The table load_roster tbl_c2_in false returns. -/
def tbl_c2_out : Table :=
  ⟨["subjectID", "Quiz_1", "Quiz_2", "Quiz_3", "Midterm_1", "Quiz_4", "Quiz_5",
    "Quiz_6", "Midterm_2", "Quiz_7", "Quiz_8", "Midterm_3", "overall_score"],
   [row_c2_out]⟩

/-- C2 witness: the example row gets overall_score 10 + 0 + 40 = 50. -/
theorem spec_C2_witness : getCol row_c2_out "overall_score" = Value.num 50 := by
  have h := spec_C2 tbl_c2_in false tbl_c2_out (by rfl) row_c2_out (by simp [tbl_c2_out])
  exact h.trans (by decide)

/-- C9: a returned roster row all of whose assessment-calendar cells are
missing has overall_score 0, not the missing sentinel. -/
theorem spec_C9 : ∀ (df : Table) (e : Bool) (t : Table),
    load_roster df e = Except.ok t →
    ∀ r ∈ t.rows, (∀ n ∈ assessments, getCol r n = Value.missing) →
      getCol r "overall_score" = Value.num 0 := by
  intro df e t h r hr hmiss
  obtain ⟨r0, hreq, -, -⟩ := load_roster_ok_rows df e t h r hr
  subst hreq
  rw [getCol_set_value_same]
  have hall : ∀ n ∈ assessments, n ≠ "overall_score" := by decide
  have h0 : ∀ n ∈ assessments, getCol r0 n = Value.missing := by
    intro n hn
    rw [← getCol_set_value_ne "overall_score" n
      (Value.num (sum_assessments r0 assessments)) r0 (hall n hn)]
    exact hmiss n hn
  congr 1
  unfold sum_assessments
  apply List.sum_eq_zero
  intro x hx
  obtain ⟨n, hn, hxn⟩ := List.mem_map.mp hx
  rw [← hxn, h0 n hn]
  rfl

/-- Concrete roster table whose single subject has every assessment cell
equal to the literal marker, which the loader recodes to missing. -/
def tbl_c9_in : Table :=
  ⟨["subjectID", "account_email", "lastname", "firstname",
    "Quiz_1", "Quiz_2", "Quiz_3", "Midterm_1", "Quiz_4", "Quiz_5", "Quiz_6",
    "Midterm_2", "Quiz_7", "Quiz_8", "Midterm_3", "Quiz_9", "Final"],
   [[("subjectID", Value.str "MBL001"), ("account_email", Value.str "a"),
     ("lastname", Value.str "b"), ("firstname", Value.str "c"),
     ("Quiz_1", Value.str "X"), ("Quiz_2", Value.str "X"), ("Quiz_3", Value.str "X"),
     ("Midterm_1", Value.str "X"), ("Quiz_4", Value.str "X"), ("Quiz_5", Value.str "X"),
     ("Quiz_6", Value.str "X"), ("Midterm_2", Value.str "X"), ("Quiz_7", Value.str "X"),
     ("Quiz_8", Value.str "X"), ("Midterm_3", Value.str "X"), ("Quiz_9", Value.str "X"),
     ("Final", Value.str "X")]]⟩

/-- The single row of load_roster tbl_c9_in true. -/
def row_c9_out : Row :=
  [("subjectID", Value.str "MBL001"),
   ("Quiz_1", Value.missing), ("Quiz_2", Value.missing), ("Quiz_3", Value.missing),
   ("Midterm_1", Value.missing), ("Quiz_4", Value.missing), ("Quiz_5", Value.missing),
   ("Quiz_6", Value.missing), ("Midterm_2", Value.missing), ("Quiz_7", Value.missing),
   ("Quiz_8", Value.missing), ("Midterm_3", Value.missing),
   ("overall_score", Value.num 0)]

/-- The table load_roster tbl_c9_in true returns. -/
def tbl_c9_out : Table :=
  ⟨["subjectID", "Quiz_1", "Quiz_2", "Quiz_3", "Midterm_1", "Quiz_4", "Quiz_5",
    "Quiz_6", "Midterm_2", "Quiz_7", "Quiz_8", "Midterm_3", "overall_score"],
   [row_c9_out]⟩

/-- C9 witness: the all-missing row gets overall_score 0. -/
theorem spec_C9_witness : getCol row_c9_out "overall_score" = Value.num 0 :=
  spec_C9 tbl_c9_in true tbl_c9_out (by rfl) row_c9_out (by simp [tbl_c9_out])
    (by decide)

/-- C6: no cell of any column of a returned roster table holds the literal
marker string, and the whole-table recode maps each cell that is the
marker to the missing sentinel while leaving every other cell unchanged,
in whatever column it sits. -/
theorem spec_C6 : ∀ (df : Table) (e : Bool) (t : Table),
    load_roster df e = Except.ok t →
    (∀ r ∈ t.rows, ∀ p ∈ r, p.2 ≠ Value.str "X") ∧
    (∀ (r : Row) (p : String × Value), p ∈ r →
      (p.1, if p.2 = Value.str "X" then Value.missing else p.2) ∈
        replace_value_row (Value.str "X") Value.missing r) := by
  intro df e t h
  constructor
  · intro r hr p hp
    obtain ⟨r0, hreq, hnoX, -⟩ := load_roster_ok_rows df e t h r hr
    subst hreq
    rcases mem_set_value_row _ _ _ p hp with hmem | heq
    · exact hnoX p hmem
    · rw [heq]
      simp
  · intro r p hp
    simp only [replace_value_row, mapRowVals, List.mem_map]
    exact ⟨p, hp, rfl⟩

/-- Concrete roster table with the marker in a non-assessment column. -/
def tbl_c6_in : Table :=
  ⟨["subjectID", "account_email", "lastname", "firstname", "notes",
    "Quiz_1", "Quiz_2", "Quiz_3", "Midterm_1", "Quiz_4", "Quiz_5", "Quiz_6",
    "Midterm_2", "Quiz_7", "Quiz_8", "Midterm_3", "Quiz_9", "Final"],
   [[("subjectID", Value.str "MBL002"), ("account_email", Value.str "a"),
     ("lastname", Value.str "b"), ("firstname", Value.str "c"),
     ("notes", Value.str "X"),
     ("Quiz_1", Value.num 1), ("Quiz_2", Value.num 1), ("Quiz_3", Value.num 1),
     ("Midterm_1", Value.num 1), ("Quiz_4", Value.num 1), ("Quiz_5", Value.num 1),
     ("Quiz_6", Value.num 1), ("Midterm_2", Value.num 1), ("Quiz_7", Value.num 1),
     ("Quiz_8", Value.num 1), ("Midterm_3", Value.num 1), ("Quiz_9", Value.num 1),
     ("Final", Value.num 1)]]⟩

/-- The single row of load_roster tbl_c6_in false: the notes cell became
missing. -/
def row_c6_out : Row :=
  [("subjectID", Value.str "MBL002"), ("notes", Value.missing),
   ("Quiz_1", Value.num 1), ("Quiz_2", Value.num 1), ("Quiz_3", Value.num 1),
   ("Midterm_1", Value.num 1), ("Quiz_4", Value.num 1), ("Quiz_5", Value.num 1),
   ("Quiz_6", Value.num 1), ("Midterm_2", Value.num 1), ("Quiz_7", Value.num 1),
   ("Quiz_8", Value.num 1), ("Midterm_3", Value.num 1),
   ("overall_score", Value.num 11)]

/-- The table load_roster tbl_c6_in false returns. -/
def tbl_c6_out : Table :=
  ⟨["subjectID", "notes", "Quiz_1", "Quiz_2", "Quiz_3", "Midterm_1", "Quiz_4",
    "Quiz_5", "Quiz_6", "Midterm_2", "Quiz_7", "Quiz_8", "Midterm_3",
    "overall_score"],
   [row_c6_out]⟩

/-- C6 witness: the marker cell of the non-assessment column is recoded to
missing and no marker survives in the returned row. -/
theorem spec_C6_witness :
    (("notes", Value.missing) ∈
      replace_value_row (Value.str "X") Value.missing [("notes", Value.str "X")]) ∧
    ("notes", Value.missing).2 ≠ Value.str "X" := by
  have h := spec_C6 tbl_c6_in false tbl_c6_out (by rfl)
  constructor
  · simpa using h.2 [("notes", Value.str "X")] ("notes", Value.str "X") (by simp)
  · exact h.1 row_c6_out (by simp [tbl_c6_out]) ("notes", Value.missing)
      (by simp [row_c6_out])
